import Mathlib

/-!
Shallow embedding of the Coaching-Backend HTTP route handlers
(`src/unnamed/part_000`: the admin router followed by the user router,
`src/unnamed/part_001`: the application wiring, `src/Models/batch.js`:
the batch schema).

Modelling conventions:
* Document ids (`_id`) are strings.
* The password-hashing primitive (bcrypt) and the token primitive (jwt)
  are external dependencies declared out of scope by the specification;
  they are modelled symbolically: a hash is a tagged copy of the
  plaintext, a signed token is a constructor carrying its claims and the
  secret it was signed with, and an arbitrary bearer segment that is not
  a signed token is `Token.raw`.
* Request bodies and query strings arrive as `Option String` fields
  (`none` = the field is absent from the JSON body / query).
* An `Authorization` header of the shape `Bearer <segment>` is modelled
  as `some <segment> : Option Token`; an absent header, or one without
  the `Bearer ` marker, is `none` (every route treats the two alike).
* Mongoose stores are lists scanned in insertion order: `findOne` /
  `findById` are `List.find?`, `find` is `List.filter`, `save` replaces
  the document with the same `_id`.
-/

/-- Symbolic bcrypt hash.  The salt / cost factor is abstracted away:
the routes only ever feed a hash produced here into `bcryptCompare`. -/
def bcryptHash (pw : String) : String := "bcrypt$2b$10$" ++ pw

/-- Symbolic `bcrypt.compare`: succeeds exactly on the hash of the
submitted plaintext. -/
def bcryptCompare (pw h : String) : Bool := h == bcryptHash pw

/-- The claim payload of a JSON Web Token as the routes sign it:
`jwt.sign({userId | adminId, email, role?}, secret)`.  A field the
route does not put into the payload is `none`. -/
structure Claims where
  userId : Option String
  adminId : Option String
  email : String
  role : Option String
deriving DecidableEq, Repr

/-- Symbolic bearer segment: either a token signed with some secret, or
an arbitrary string that is not a valid signed token (such as a raw
document id pasted into the header). -/
inductive Token where
  | signed (c : Claims) (secret : String)
  | raw (s : String)
deriving DecidableEq, Repr

/-- Symbolic `jwt.sign`. -/
def jwtSign (c : Claims) (secret : String) : Token := .signed c secret

/-- Symbolic `jwt.verify`: returns the claims when the token was signed
with the expected secret, otherwise fails (`none` stands for the
`JsonWebTokenError` the library throws). -/
def jwtVerify (t : Token) (secret : String) : Option Claims :=
  match t with
  | .signed c s => if s = secret then some c else none
  | .raw _ => none

/-- The bearer segment as the literal string the route reads after
`authHeader.split(' ')[1]`.  A signed token renders as a compact JWS
placeholder, which is never a document id in any scenario below. -/
def Token.rawText : Token → String
  | .raw s => s
  | .signed _ _ => "eyJ<compact-jws>"

/-- JavaScript truthiness of an optional string field: absent and `""`
are falsy. -/
def truthy : Option String → Bool
  | none => false
  | some s => !(s == "")

/-- An `AdminUser` document (the model file is not under `src/`; fields
are exactly the ones `AdminUser.create` writes in the admin register
route). -/
structure AdminUser where
  _id : String
  name : String
  email : String
  password : String
  role : String
  active : Bool
deriving DecidableEq, Repr

/-- A `User` document (student or parent; the model file is not under
`src/`; fields are exactly the ones `User.create` writes in the user
register route — the parent record has no `parentEmail`). -/
structure User where
  _id : String
  name : String
  email : String
  parentEmail : Option String
  password : String
  role : String
deriving DecidableEq, Repr

/-- An announcement embedded in a batch (`src/Models/batch.js`). -/
structure Announcement where
  title : String
  content : String
  teacher_id : String
  createdAt : Nat
deriving DecidableEq, Repr

/-- A `Batch` document (`src/Models/batch.js`).  The source field
`class` is a Lean keyword and is embedded as `classLabel`. -/
structure Batch where
  _id : String
  batch_code : String
  name : String
  classLabel : String
  teacher_id : String
  students : List String
  announcements : List Announcement
  createdAt : Nat
deriving DecidableEq, Repr

/-- Projection produced by `find(..., 'name email')`. -/
structure UserRef where
  _id : String
  name : String
  email : String
deriving DecidableEq, Repr

def User.toRef (u : User) : UserRef := ⟨u._id, u.name, u.email⟩

/-- The document store.  `nextId` feeds fresh `_id`s, `now` is the
server clock used for `createdAt`. -/
structure DB where
  admins : List AdminUser
  users : List User
  batches : List Batch
  nextId : Nat
  now : Nat
deriving DecidableEq, Repr

def emptyDB : DB := ⟨[], [], [], 0, 0⟩

def freshId (n : Nat) : String := "oid" ++ toString n

def findAdminById (db : DB) (i : String) : Option AdminUser :=
  db.admins.find? (fun a => a._id == i)

def findAdminByEmail (db : DB) (e : String) : Option AdminUser :=
  db.admins.find? (fun a => a.email == e)

def findUserById (db : DB) (i : String) : Option User :=
  db.users.find? (fun u => u._id == i)

/-- `findById` applied to a claim field that may be absent
(`findById(undefined)` finds nothing in this model). -/
def findUserByOptId (db : DB) (o : Option String) : Option User :=
  o.bind (fun i => findUserById db i)

def findBatchById (db : DB) (i : String) : Option Batch :=
  db.batches.find? (fun b => b._id == i)

def findBatchByCode (db : DB) (c : String) : Option Batch :=
  db.batches.find? (fun b => b.batch_code == c)

/-- `batch.save()` after mutating a fetched document: replace the
document with the same `_id`. -/
def saveBatch (db : DB) (b : Batch) : DB :=
  { db with batches := db.batches.map (fun x => if x._id == b._id then b else x) }

/-- `toUpperCase()` as the routes apply it to batch codes (ASCII
case-mapping), defined by a structural map over the characters so that
concrete instances evaluate inside the kernel. -/
def jsToUpper (s : String) : String := String.mk (s.data.map Char.toUpper)

/-- Models the login email regex `/^\S+@\S+\.\S+$/` of `validateLogin`:
no whitespace anywhere, an `@` with at least one character before it,
and a later `.` with at least one character on each side. -/
def emailRegexOk (s : String) : Bool :=
  let cs := s.toList
  cs.all (fun c => !c.isWhitespace) &&
  (List.range cs.length).any (fun p =>
    decide (1 ≤ p) && (cs.getD p ' ' == '@') &&
    (List.range cs.length).any (fun q =>
      decide (p + 2 ≤ q) && decide (q + 1 < cs.length) && (cs.getD q ' ' == '.')))

/-- Models the out-of-scope Zod `z.string().email()` validator; the
exact library regex is an external dependency, and every claim below
either takes validation as a hypothesis or uses plainly well-formed
addresses, so it is modelled by the same shape test as the login
regex. -/
def zodEmailOk (s : String) : Bool := emailRegexOk s

/-- Result of a route that may issue a token and mutate the store
(the register routes). -/
structure RegisterOut where
  status : Nat
  token : Option Token
  db : DB
deriving DecidableEq, Repr

/-- Result of a login route (login routes never mutate the store). -/
structure LoginOut where
  status : Nat
  token : Option Token
  linkedStudents : List UserRef
deriving DecidableEq, Repr

/-- Result of a route that mutates the store without issuing tokens. -/
structure MutOut where
  status : Nat
  db : DB
deriving DecidableEq, Repr

/-- Result of a read-only route: the HTTP status and the batches the
payload was shaped from. -/
structure QueryOut where
  status : Nat
  batches : List Batch
deriving DecidableEq, Repr

/-- Admin `registerSchema.parse` (`part_000` lines 11-15): name
non-empty, email well-formed, password at least 6 characters; a missing
field is a Zod required error.  `none` models the thrown `ZodError`. -/
def adminRegisterParse (name email password : Option String) :
    Option (String × String × String) :=
  match name, email, password with
  | some n, some e, some pw =>
      if n.length ≥ 1 && zodEmailOk e && pw.length ≥ 6 then some (n, e, pw) else none
  | _, _, _ => none

/-- `POST /admin/register` (`part_000` lines 33-118). -/
def adminRegister (db : DB) (secret : String)
    (name email password : Option String) : RegisterOut :=
  match adminRegisterParse name email password with
  | none => ⟨400, none, db⟩
  | some (n, e, pw) =>
      match findAdminByEmail db e with
      | some _ => ⟨409, none, db⟩
      | none =>
          let hashedPassword := bcryptHash pw
          let admin : AdminUser :=
            ⟨freshId db.nextId, n, e, hashedPassword, "admin", true⟩
          let token := jwtSign ⟨none, some admin._id, admin.email, some "admin"⟩ secret
          ⟨201, some token,
            { db with admins := db.admins ++ [admin], nextId := db.nextId + 1 }⟩

/-- `validateLogin` (`part_000` lines 120-135). -/
def validateLoginOk (email password : Option String) : Bool :=
  (match email with
   | none => false
   | some e => emailRegexOk e) &&
  truthy password

/-- `POST /admin/login` (`part_000` lines 137-176).  Note the signed
claims carry `adminId` and `email` only — no `role` claim. -/
def adminLogin (db : DB) (secret : String)
    (email password : Option String) : LoginOut :=
  if !validateLoginOk email password then ⟨400, none, []⟩
  else
    match email, password with
    | some e, some pw =>
        match findAdminByEmail db e with
        | none => ⟨404, none, []⟩
        | some admin =>
            if !bcryptCompare pw admin.password then ⟨401, none, []⟩
            else ⟨200, some (jwtSign ⟨none, some admin._id, admin.email, none⟩ secret), []⟩
    | _, _ => ⟨400, none, []⟩

/-- `batchSchema.parse` (`part_000` lines 17-22): four required
non-empty string fields. -/
def batchParse (batch_code name classLabel teacher_id : Option String) :
    Option (String × String × String × String) :=
  match batch_code, name, classLabel, teacher_id with
  | some bc, some n, some cl, some tid =>
      if bc.length ≥ 1 && n.length ≥ 1 && cl.length ≥ 1 && tid.length ≥ 1
      then some (bc, n, cl, tid) else none
  | _, _, _, _ => none

/-- `POST /admin/batches` (`part_000` lines 179-227).  The catch
handler at lines 219-226 answers every thrown error — the `ZodError`
of a failed `batchSchema.parse` included — with status 500. -/
def createBatch (db : DB)
    (batch_code name classLabel teacher_id : Option String) : MutOut :=
  match batchParse batch_code name classLabel teacher_id with
  | none => ⟨500, db⟩
  | some (bc, n, cl, tid) =>
      match findAdminById db tid with
      | none => ⟨404, db⟩
      | some admin =>
          match findBatchByCode db (jsToUpper bc) with
          | some _ => ⟨409, db⟩
          | none =>
              let batch : Batch :=
                ⟨freshId db.nextId, jsToUpper bc, n, cl, admin._id, [], [], db.now⟩
              ⟨201, { db with batches := db.batches ++ [batch],
                              nextId := db.nextId + 1 }⟩

/-- `POST /admin/batches/:batchId/students` (`part_000` lines
230-285). -/
def addStudents (db : DB) (batchId : String)
    (studentIds : Option (List String)) : MutOut :=
  match studentIds with
  | none => ⟨400, db⟩
  | some ids =>
      if ids.length = 0 then ⟨400, db⟩
      else
        match findBatchById db batchId with
        | none => ⟨404, db⟩
        | some batch =>
            let students :=
              db.users.filter (fun u => ids.contains u._id && u.role == "student")
            if students.length ≠ ids.length then ⟨400, db⟩
            else
              let newStudentIds := ids.filter (fun i => !batch.students.contains i)
              let batch' := { batch with students := batch.students ++ newStudentIds }
              ⟨200, saveBatch db batch'⟩

/-- Payload of `GET /admin/teachers`. -/
structure TeachersOut where
  teachers : List UserRef
  count : Nat
deriving DecidableEq, Repr

/-- `GET /admin/teachers` (`part_000` lines 360-377): queries the
`User` store for role `teacher`. -/
def getTeachers (db : DB) : TeachersOut :=
  let teachers := (db.users.filter (fun u => u.role == "teacher")).map User.toRef
  ⟨teachers, teachers.length⟩

/-- `POST /admin/batches/:batchId/announcements` (`part_000` lines
380-453).  The bearer segment is used verbatim as an admin id
(`AdminUser.findById(tokenTeacherId)`); no `jwt.verify` call occurs
anywhere in the handler.  The body field `teacher_id` is destructured
and then ignored.  A missing `title` or `content` survives until
`batch.save()`, whose schema validation failure lands in the catch
handler (500) with the store unchanged. -/
def createAnnouncement (db : DB) (batchId : String)
    (title content : Option String) (authHeader : Option Token) : MutOut :=
  match authHeader with
  | none => ⟨401, db⟩
  | some tok =>
      let tokenTeacherId := tok.rawText
      match findAdminById db tokenTeacherId with
      | none => ⟨401, db⟩
      | some _ =>
          match findBatchById db batchId with
          | none => ⟨404, db⟩
          | some batch =>
              if batch.teacher_id ≠ tokenTeacherId then ⟨403, db⟩
              else
                match title, content with
                | some t, some c =>
                    let batch' := { batch with announcements :=
                      ⟨t, c, tokenTeacherId, db.now⟩ :: batch.announcements }
                    ⟨201, saveBatch db batch'⟩
                | _, _ => ⟨500, db⟩

/-- User `registerSchema.parse` (`part_000` lines 495-500): name
non-empty, email and parentEmail well-formed, password at least 6
characters. -/
def userRegisterParse (name email parentEmail password : Option String) :
    Option (String × String × String × String) :=
  match name, email, parentEmail, password with
  | some n, some e, some pe, some pw =>
      if n.length ≥ 1 && zodEmailOk e && zodEmailOk pe && pw.length ≥ 6
      then some (n, e, pe, pw) else none
  | _, _, _, _ => none

/-- `POST /user/register` (`part_000` lines 518-566): the duplicate
check matches the `email` field against either submitted address, one
hash is computed and stored in both created records, and the catch
handler answers every thrown error with 400. -/
def userRegister (db : DB) (secret : String)
    (name email parentEmail password : Option String) : RegisterOut :=
  match userRegisterParse name email parentEmail password with
  | none => ⟨400, none, db⟩
  | some (n, e, pe, pw) =>
      match db.users.find? (fun u => u.email == e || u.email == pe) with
      | some _ => ⟨409, none, db⟩
      | none =>
          let hashedPassword := bcryptHash pw
          let user : User :=
            ⟨freshId db.nextId, n, e, some pe, hashedPassword, "student"⟩
          let parent : User :=
            ⟨freshId (db.nextId + 1), "Parent of " ++ n, pe, none,
              hashedPassword, "parent"⟩
          let token := jwtSign ⟨some user._id, none, user.email, some user.role⟩ secret
          ⟨201, some token,
            { db with users := db.users ++ [user, parent], nextId := db.nextId + 2 }⟩

/-- `loginSchema.parse` (`part_000` lines 502-505): well-formed email,
password at least 1 character. -/
def loginParse (email password : Option String) : Option (String × String) :=
  match email, password with
  | some e, some pw => if zodEmailOk e && pw.length ≥ 1 then some (e, pw) else none
  | _, _ => none

/-- `POST /user/login`, the legacy route (`part_000` lines 569-608):
looks a user up by `email` or `parentEmail` equal to the submitted
address. -/
def userLogin (db : DB) (secret : String)
    (email password : Option String) : LoginOut :=
  match loginParse email password with
  | none => ⟨400, none, []⟩
  | some (e, pw) =>
      match db.users.find? (fun u => u.email == e || u.parentEmail == some e) with
      | none => ⟨404, none, []⟩
      | some user =>
          if !bcryptCompare pw user.password then ⟨401, none, []⟩
          else ⟨200, some (jwtSign ⟨some user._id, none, user.email, some user.role⟩ secret), []⟩

/-- `POST /user/login/student` (`part_000` lines 611-663). -/
def loginStudent (db : DB) (secret : String)
    (email password : Option String) : LoginOut :=
  if !(truthy email && truthy password) then ⟨400, none, []⟩
  else
    match email, password with
    | some e, some pw =>
        match db.users.find? (fun u => u.email == e && u.role == "student") with
        | none => ⟨404, none, []⟩
        | some student =>
            if !bcryptCompare pw student.password then ⟨401, none, []⟩
            else ⟨200, some (jwtSign ⟨some student._id, none, student.email,
                    some "student"⟩ secret), []⟩
    | _, _ => ⟨400, none, []⟩

/-- `POST /user/login/parent` (`part_000` lines 666-734): on success
also returns the linked students, the users whose `parentEmail` equals
the submitted address and whose role is `student`. -/
def loginParent (db : DB) (secret : String)
    (email password : Option String) : LoginOut :=
  if !(truthy email && truthy password) then ⟨400, none, []⟩
  else
    match email, password with
    | some e, some pw =>
        match db.users.find? (fun u => u.email == e && u.role == "parent") with
        | none => ⟨404, none, []⟩
        | some parent =>
            if !bcryptCompare pw parent.password then ⟨401, none, []⟩
            else
              let linkedStudents :=
                (db.users.filter (fun u =>
                  u.parentEmail == some e && u.role == "student")).map User.toRef
              ⟨200, some (jwtSign ⟨some parent._id, none, parent.email,
                some "parent"⟩ secret), linkedStudents⟩
    | _, _ => ⟨400, none, []⟩

/-- Body of `PUT /user/profile`. -/
structure ProfileBody where
  name : Option String
  email : Option String
  currentPassword : Option String
  newPassword : Option String
deriving DecidableEq, Repr

/-- `profileSchema.parse` (`part_000` lines 507-512): every field
optional, email well-formed when present, newPassword at least 6
characters when present. -/
def profileParseOk (b : ProfileBody) : Bool :=
  (match b.email with | none => true | some e => zodEmailOk e) &&
  (match b.newPassword with | none => true | some np => np.length ≥ 6)

/-- `PUT /user/profile` (`part_000` lines 736-762), parametrised by the
`req.user` context an authentication middleware would have injected.
When that context is absent, the property access `req.user.userId`
throws a `TypeError`, which the catch handler answers with 400. -/
def putProfile (db : DB) (body : ProfileBody) (reqUser : Option String) : MutOut :=
  if !profileParseOk body then ⟨400, db⟩
  else
    match reqUser with
    | none => ⟨400, db⟩
    | some uid =>
        match findUserById db uid with
        | none => ⟨404, db⟩
        | some user =>
            match
              (if truthy body.currentPassword && truthy body.newPassword then
                match body.currentPassword, body.newPassword with
                | some cp, some np =>
                    if !bcryptCompare cp user.password then none
                    else some { user with password := bcryptHash np }
                | _, _ => some user
              else some user) with
            | none => ⟨401, db⟩
            | some user1 =>
                let user2 :=
                  match body.name with
                  | some n => if truthy body.name then { user1 with name := n } else user1
                  | none => user1
                match body.email with
                | some e =>
                    if truthy body.email then
                      if (db.users.find? (fun u =>
                            u.email == e && u._id ≠ user._id)).isSome
                      then ⟨409, db⟩
                      else
                        ⟨200, { db with users := db.users.map (fun u =>
                          if u._id == user._id then { user2 with email := e } else u) }⟩
                    else
                      ⟨200, { db with users := db.users.map (fun u =>
                        if u._id == user._id then user2 else u) }⟩
                | none =>
                    ⟨200, { db with users := db.users.map (fun u =>
                      if u._id == user._id then user2 else u) }⟩

/-- `PUT /user/profile` as it is actually mounted: `part_000` line 491
imports an authentication middleware that no route of the user router
uses, and the application wiring (`part_001` lines 12-18) installs only
the JSON body parser and CORS, so `req.user` is never populated. -/
def mountedPutProfile (db : DB) (body : ProfileBody) : MutOut :=
  putProfile db body none

/-- `POST /user/join-batch` (`part_000` lines 764-841): verifies the
bearer token (a verification failure is answered 401 by the catch
handler), requires the resolved user to be a student, looks the batch
up by uppercased code, rejects an already-enrolled student with 409,
otherwise appends the student id and saves. -/
def joinBatch (db : DB) (secret : String)
    (batch_code : Option String) (authHeader : Option Token) : MutOut :=
  if !(truthy batch_code && authHeader.isSome) then ⟨400, db⟩
  else
    match batch_code, authHeader with
    | some code, some tok =>
        match jwtVerify tok secret with
        | none => ⟨401, db⟩
        | some decoded =>
            match findUserByOptId db decoded.userId with
            | none => ⟨403, db⟩
            | some student =>
                if student.role ≠ "student" then ⟨403, db⟩
                else
                  match findBatchByCode db (jsToUpper code) with
                  | none => ⟨404, db⟩
                  | some batch =>
                      if batch.students.contains student._id then ⟨409, db⟩
                      else
                        ⟨200, saveBatch db
                          { batch with students := batch.students ++ [student._id] }⟩
    | _, _ => ⟨400, db⟩

/-- Insertion sort by descending `createdAt`, modelling
`.sort({ createdAt: -1 })`. -/
def insertByCreatedDesc (b : Batch) : List Batch → List Batch
  | [] => [b]
  | x :: xs => if b.createdAt ≥ x.createdAt then b :: x :: xs
               else x :: insertByCreatedDesc b xs

def sortByCreatedDesc (l : List Batch) : List Batch :=
  l.foldr insertByCreatedDesc []

/-- `GET /user/my-batches` (`part_000` lines 843-882): the handler
never reads the `Authorization` header; it requires only the
`student_id` query parameter and returns every batch whose student list
contains it. -/
def myBatches (db : DB) (student_id : Option String) : QueryOut :=
  if !truthy student_id then ⟨400, []⟩
  else
    match student_id with
    | some sid =>
        ⟨200, sortByCreatedDesc (db.batches.filter (fun b => b.students.contains sid))⟩
    | none => ⟨400, []⟩

/-- `GET /user/parent/student-batches` (`part_000` lines 884-952):
verifies the bearer token, but its catch handler answers a
`JsonWebTokenError` — which carries no `status` field — with
`error.status || 500`, i.e. 500.  On success returns, for each user
whose `parentEmail` equals the parent's email, that user's batches. -/
structure ParentBatchesOut where
  status : Nat
  data : List (UserRef × List Batch)
deriving DecidableEq, Repr

def parentStudentBatches (db : DB) (secret : String)
    (authHeader : Option Token) : ParentBatchesOut :=
  match authHeader with
  | none => ⟨401, []⟩
  | some tok =>
      match jwtVerify tok secret with
      | none => ⟨500, []⟩
      | some decoded =>
          match findUserByOptId db decoded.userId with
          | none => ⟨403, []⟩
          | some parent =>
              if parent.role ≠ "parent" then ⟨403, []⟩
              else
                let students := db.users.filter
                  (fun u => u.parentEmail == some parent.email)
                ⟨200, students.map (fun s =>
                  (s.toRef, sortByCreatedDesc
                    (db.batches.filter (fun b => b.students.contains s._id))))⟩

/-- `GET /user/student/batches/:batchId` (`part_000` lines 955-1051):
verifies the bearer token (401 on failure), rejects with 403 when the
decoded `userId` claim differs from the `userId` query parameter, and
rejects with 403 when the queried student is not enrolled. -/
def studentBatchGet (db : DB) (secret : String) (batchId : String)
    (userId : Option String) (authHeader : Option Token) : QueryOut :=
  match authHeader with
  | none => ⟨401, []⟩
  | some tok =>
      match jwtVerify tok secret with
      | none => ⟨401, []⟩
      | some decoded =>
          if decoded.userId ≠ userId then ⟨403, []⟩
          else
            match findBatchById db batchId with
            | none => ⟨404, []⟩
            | some batch =>
                if !batch.students.any (fun s => some s == userId) then ⟨403, []⟩
                else ⟨200, [batch]⟩

/-- `GET /user/parent/batches/:batchId` (`part_000` lines 1054-1134):
checks only that a `Bearer `-prefixed header is present and never calls
`jwt.verify`; the `parentId` and `studentId` query parameters are
looked up directly and trusted, subject to the parent-role,
`parentEmail`-link and enrollment checks. -/
def parentBatchGet (db : DB) (batchId : String)
    (parentId studentId : Option String) (authHeader : Option Token) : QueryOut :=
  match authHeader with
  | none => ⟨401, []⟩
  | some _ =>
      let parent? := findUserByOptId db parentId
      let student? := findUserByOptId db studentId
      match parent? with
      | none => ⟨403, []⟩
      | some parent =>
          if parent.role ≠ "parent" then ⟨403, []⟩
          else
            match student? with
            | none => ⟨403, []⟩
            | some student =>
                if student.parentEmail ≠ some parent.email then ⟨403, []⟩
                else
                  match findBatchById db batchId with
                  | none => ⟨404, []⟩
                  | some batch =>
                      if !batch.students.any (fun s => some s == studentId) then ⟨403, []⟩
                      else ⟨200, [batch]⟩

/-- One store-mutating request handled by a mounted route of the
application (`part_001` mounts the admin router at `/admin` and the
user router at `/user`; the read-only routes leave the store
untouched and are omitted). -/
inductive Step : DB → DB → Prop where
  | adminReg (db : DB) (secret : String) (name email password : Option String) :
      Step db (adminRegister db secret name email password).db
  | userReg (db : DB) (secret : String) (name email parentEmail password : Option String) :
      Step db (userRegister db secret name email parentEmail password).db
  | batchCreate (db : DB) (batch_code name classLabel teacher_id : Option String) :
      Step db (createBatch db batch_code name classLabel teacher_id).db
  | studentsAdd (db : DB) (batchId : String) (studentIds : Option (List String)) :
      Step db (addStudents db batchId studentIds).db
  | announce (db : DB) (batchId : String) (title content : Option String)
      (authHeader : Option Token) :
      Step db (createAnnouncement db batchId title content authHeader).db
  | batchJoin (db : DB) (secret : String) (batch_code : Option String)
      (authHeader : Option Token) :
      Step db (joinBatch db secret batch_code authHeader).db
  | profile (db : DB) (body : ProfileBody) :
      Step db (mountedPutProfile db body).db

/-- The stores reachable from the empty store through the mounted
routes. -/
inductive Reachable : DB → Prop where
  | init : Reachable emptyDB
  | step {db db' : DB} : Reachable db → Step db db' → Reachable db'

/-! Concrete fixtures used by witnesses and counterexamples. -/

def adminA : AdminUser := ⟨"a1", "A", "a@x.com", bcryptHash "secret1", "admin", true⟩

def stuS : User := ⟨"s1", "S", "s@x.com", some "p@x.com", bcryptHash "pw123456", "student"⟩

def parP : User := ⟨"p1", "Parent of S", "p@x.com", none, bcryptHash "pw123456", "parent"⟩

def batchB : Batch := ⟨"b1", "CS101", "CS", "10", "a1", ["s1"], [], 0⟩

def batchEmptyB : Batch := ⟨"b2", "CS102", "CS2", "10", "a1", [], [], 0⟩

def dbW : DB := ⟨[adminA], [stuS, parP], [batchB, batchEmptyB], 5, 7⟩

def dbAdminOnly : DB := ⟨[adminA], [], [], 0, 0⟩

/-- `find?` after an in-place replacement of the found document: the
replacing document is found at the same position. -/
theorem find?_replace (l : List Batch) (i : String) (b b' : Batch)
    (h : l.find? (fun x => x._id == i) = some b) (hid : b'._id = i) :
    (l.map (fun x => if x._id == b'._id then b' else x)).find?
      (fun x => x._id == i) = some b' := by
  subst hid
  induction l with
  | nil => simp at h
  | cons a l ih =>
      by_cases ha : (a._id == b'._id) = true
      · simp only [List.map_cons, if_pos ha]
        exact List.find?_cons_of_pos (p := fun x : Batch => x._id == b'._id) _ (by simp)
      · rw [List.find?_cons_of_neg (p := fun x : Batch => x._id == b'._id) _ ha] at h
        simp only [List.map_cons, if_neg ha]
        rw [List.find?_cons_of_neg (p := fun x : Batch => x._id == b'._id) _ ha]
        exact ih h

/-- C9: through the mounted application the profile-update route always
answers 400 and leaves the store unchanged — the user router installs
no authentication middleware (the import at `part_000` line 491 is
unused and `part_001` mounts only the JSON parser and CORS), so
`req.user` is `undefined` and `req.user.userId` throws a `TypeError`
that the catch handler converts to 400 before any lookup or write; the
success branch is unreachable. -/
theorem profile_update_always_400_unchanged (db : DB) (body : ProfileBody) :
    (mountedPutProfile db body).status = 400 ∧ (mountedPutProfile db body).db = db := by
  unfold mountedPutProfile putProfile
  by_cases h : profileParseOk body = true
  · simp [h]
  · simp [Bool.not_eq_true] at h
    simp [h]

/-- C1: on `POST /admin/batches/:batchId/announcements` a bearer
segment that is not a valid signed token (here a raw string, which
`jwtVerify` rejects under every secret) but equals the `_id` of an
existing `AdminUser` is accepted whenever that id equals the batch's
`teacher_id`: the route answers 201 and the announcement is added to
the batch; the handler contains no signature verification at all. -/
theorem announcement_accepts_raw_admin_id_bearer (db : DB)
    (bid tid title content : String) (a : AdminUser) (b : Batch)
    (ha : findAdminById db tid = some a)
    (hb : findBatchById db bid = some b)
    (ht : b.teacher_id = tid) :
    (createAnnouncement db bid (some title) (some content) (some (.raw tid))).status
        = 201 ∧
    findBatchById
        (createAnnouncement db bid (some title) (some content) (some (.raw tid))).db
        bid =
      some { b with announcements :=
        ⟨title, content, tid, db.now⟩ :: b.announcements } ∧
    ∀ secret, jwtVerify (.raw tid) secret = none := by
  have hbid : (b._id == bid) = true :=
    List.find?_some (p := fun x : Batch => x._id == bid) hb
  have hbid' : b._id = bid := by simpa using hbid
  unfold createAnnouncement
  simp only [Token.rawText]
  rw [ha, hb]
  dsimp only
  rw [if_neg (by simp [ht])]
  refine ⟨rfl, ?_, fun _ => rfl⟩
  unfold saveBatch findBatchById
  exact find?_replace db.batches bid b _ hb hbid'

/-- Witness for `announcement_accepts_raw_admin_id_bearer` at a
concrete store. -/
theorem announcement_accepts_raw_admin_id_bearer_witness :
    (createAnnouncement dbW "b1" (some "T") (some "C") (some (.raw "a1"))).status
        = 201 ∧
    findBatchById
        (createAnnouncement dbW "b1" (some "T") (some "C") (some (.raw "a1"))).db
        "b1" =
      some { batchB with announcements :=
        ⟨"T", "C", "a1", dbW.now⟩ :: batchB.announcements } ∧
    ∀ secret, jwtVerify (.raw "a1") secret = none :=
  announcement_accepts_raw_admin_id_bearer dbW "b1" "a1" "T" "C" adminA batchB
    (by decide) (by decide) (by decide)

/-- C8: the claim that every malformed body is answered with a 400
ValidationError fails on `POST /admin/batches`: a body without a
`batch_code` is a `batchSchema` validation failure, yet the catch
handler (`part_000` lines 219-226) answers it with status 500, the
code the taxonomy reserves for unexpected store or primitive
failures. -/
theorem create_batch_validation_error_returns_500 :
    batchParse none (some "CS") (some "10") (some "a1") = none ∧
    createBatch dbW none (some "CS") (some "10") (some "a1") = ⟨500, dbW⟩ := by
  constructor
  · rfl
  · rfl

/-- C6: `POST /admin/batches` with input accepted by `batchSchema`:
an unknown `teacher_id` yields 404 with nothing persisted; an existing
batch under the uppercased code yields 409 with nothing persisted;
otherwise one batch is appended whose `batch_code` is the uppercased
input and whose student list is empty. -/
theorem create_batch_contract (db : DB) (bc n cl tid : String)
    (hp : batchParse (some bc) (some n) (some cl) (some tid) = some (bc, n, cl, tid)) :
    (findAdminById db tid = none →
      createBatch db (some bc) (some n) (some cl) (some tid) = ⟨404, db⟩) ∧
    (∀ a, findAdminById db tid = some a →
      (findBatchByCode db (jsToUpper bc)).isSome →
      createBatch db (some bc) (some n) (some cl) (some tid) = ⟨409, db⟩) ∧
    (∀ a, findAdminById db tid = some a →
      findBatchByCode db (jsToUpper bc) = none →
      createBatch db (some bc) (some n) (some cl) (some tid) =
        ⟨201, { db with
          batches := db.batches ++
            [⟨freshId db.nextId, jsToUpper bc, n, cl, a._id, [], [], db.now⟩],
          nextId := db.nextId + 1 }⟩) := by
  refine ⟨?_, ?_, ?_⟩
  · intro hA
    unfold createBatch
    rw [hp]
    dsimp only
    rw [hA]
  · intro a hA hB
    unfold createBatch
    rw [hp]
    dsimp only
    rw [hA]
    dsimp only
    obtain ⟨eb, hEB⟩ := Option.isSome_iff_exists.mp hB
    rw [hEB]
  · intro a hA hB
    unfold createBatch
    rw [hp]
    dsimp only
    rw [hA]
    dsimp only
    rw [hB]

/-- Witness for `create_batch_contract`: the scenario of the spec,
`batch_code` "cs101" stored as "CS101", run from the fixture store. -/
theorem create_batch_contract_witness :
    createBatch dbAdminOnly (some "cs101") (some "CS") (some "10") (some "a1") =
      ⟨201, { dbAdminOnly with
        batches := [⟨freshId dbAdminOnly.nextId, "CS101", "CS", "10", "a1", [], [], dbAdminOnly.now⟩],
        nextId := dbAdminOnly.nextId + 1 }⟩ := by
  have h := (create_batch_contract dbAdminOnly "cs101" "CS" "10" "a1" (by decide)).2.2
    adminA (by decide) (by decide)
  rw [show jsToUpper "cs101" = "CS101" by decide] at h
  rw [show adminA._id = "a1" by decide] at h
  simpa using h

/-- Replacing one batch via `saveBatch` preserves duplicate-freeness of
every student list when the replacement's list is duplicate-free. -/
theorem saveBatch_nodup (db : DB) (b2 : Batch)
    (hnd : ∀ b ∈ db.batches, b.students.Nodup) (h2 : b2.students.Nodup) :
    ∀ b' ∈ (saveBatch db b2).batches, b'.students.Nodup := by
  intro b' hb'
  simp only [saveBatch, List.mem_map] at hb'
  obtain ⟨x, hx, hx2⟩ := hb'
  by_cases hc : (x._id == b2._id) = true
  · rw [if_pos hc] at hx2
    subst hx2
    exact h2
  · rw [if_neg hc] at hx2
    subst hx2
    exact hnd x hx

/-- C5: on `POST /user/join-batch`, a verified token resolving to a
non-student user is rejected with 403 and the store is unchanged; a
student already enrolled in the batch is rejected with 409 and the
store is unchanged; and (for every input whatsoever) the handler never
introduces a duplicate entry into any batch's student list. -/
theorem join_batch_contract (db : DB) (secret code : String) (hcode : code ≠ "")
    (tok : Token) (c : Claims)
    (hv : jwtVerify tok secret = some c) :
    (∀ u, findUserByOptId db c.userId = some u → u.role ≠ "student" →
      joinBatch db secret (some code) (some tok) = ⟨403, db⟩) ∧
    (∀ u b, findUserByOptId db c.userId = some u → u.role = "student" →
      findBatchByCode db (jsToUpper code) = some b →
      u._id ∈ b.students →
      joinBatch db secret (some code) (some tok) = ⟨409, db⟩) ∧
    (∀ cod ah, (∀ b ∈ db.batches, b.students.Nodup) →
      ∀ b' ∈ (joinBatch db secret cod ah).db.batches, b'.students.Nodup) := by
  have htr : (truthy (some code) && (some tok).isSome) = true := by
    simp [truthy, hcode]
  refine ⟨?_, ?_, ?_⟩
  · intro u hu hrole
    unfold joinBatch
    rw [htr, if_neg (by simp)]
    dsimp only
    rw [hv]
    dsimp only
    rw [hu]
    dsimp only
    rw [if_pos hrole]
  · intro u b hu hrole hb hmem
    unfold joinBatch
    rw [htr, if_neg (by simp)]
    dsimp only
    rw [hv]
    dsimp only
    rw [hu]
    dsimp only
    rw [if_neg (by simp [hrole]), hb]
    dsimp only
    rw [if_pos (by simpa [List.elem_iff] using hmem)]
  · intro cod ah hnd
    unfold joinBatch
    repeat' split
    any_goals exact hnd
    rename_i batch hbfind hcont
    refine saveBatch_nodup db _ hnd ?_
    have hbmem : batch ∈ db.batches := List.mem_of_find?_eq_some hbfind
    have hnmem := fun hm => hcont (by simpa [List.elem_iff] using hm)
    simpa [List.concat_eq_append] using (hnd batch hbmem).concat hnmem

/-- Witness for `join_batch_contract`: the fixture student, already
enrolled in batch CS101, joins again and is rejected with 409 while the
store is unchanged. -/
theorem join_batch_contract_witness :
    joinBatch dbW "sec" (some "cs101")
      (some (jwtSign ⟨some "s1", none, "s@x.com", some "student"⟩ "sec")) =
      ⟨409, dbW⟩ :=
  (join_batch_contract dbW "sec" "cs101" (by decide)
      (jwtSign ⟨some "s1", none, "s@x.com", some "student"⟩ "sec")
      ⟨some "s1", none, "s@x.com", some "student"⟩ (by decide)).2.1
    stuS batchB (by decide) (by decide) (by decide) (by decide)

/-- Does an id resolve to a stored user with role student?  (The
resolution test the add-students route performs through
`User.find({_id: {$in: studentIds}, role: 'student'})`.) -/
def resolvesAsStudent (db : DB) (i : String) : Bool :=
  db.users.any (fun u => u._id == i && u.role == "student")

/-- When the submitted ids are pairwise distinct, the stored user ids
are pairwise distinct, and every submitted id resolves to a student,
the `$in`-filter returns exactly one user per submitted id. -/
theorem filter_students_length_eq (db : DB) (ids : List String)
    (hnd : ids.Nodup) (hudb : (db.users.map User._id).Nodup)
    (hres : ∀ i ∈ ids, resolvesAsStudent db i = true) :
    (db.users.filter (fun u => ids.contains u._id && u.role == "student")).length
      = ids.length := by
  set S := db.users.filter (fun u => ids.contains u._id && u.role == "student")
    with hS
  have hsub : List.Sublist (S.map User._id) (db.users.map User._id) :=
    (List.filter_sublist _).map _
  have hSnd : (S.map User._id).Nodup := hudb.sublist hsub
  have hmem : ∀ x, x ∈ S.map User._id ↔ x ∈ ids := by
    intro x
    constructor
    · intro hx
      obtain ⟨u, hu, h⟩ := List.mem_map.mp hx
      subst h
      have h2 := (List.mem_filter.mp hu).2
      simp only [Bool.and_eq_true] at h2
      exact List.elem_iff.mp h2.1
    · intro hx
      have h := hres x hx
      simp only [resolvesAsStudent, List.any_eq_true, Bool.and_eq_true,
        beq_iff_eq] at h
      obtain ⟨u, hu, hid, hrole⟩ := h
      refine List.mem_map.mpr ⟨u, ?_, hid⟩
      refine List.mem_filter.mpr ⟨hu, ?_⟩
      simp only [Bool.and_eq_true]
      exact ⟨List.elem_iff.mpr (hid ▸ hx), by simp [hrole]⟩
  have hfin : (S.map User._id).toFinset = ids.toFinset := by
    ext x
    simp only [List.mem_toFinset]
    exact hmem x
  calc S.length = (S.map User._id).length := (List.length_map S User._id).symm
    _ = (S.map User._id).toFinset.card := (List.toFinset_card_of_nodup hSnd).symm
    _ = ids.toFinset.card := by rw [hfin]
    _ = ids.length := List.toFinset_card_of_nodup hnd

/-- When some submitted id resolves to no stored student, the
`$in`-filter returns strictly fewer users than there are submitted
ids (given duplicate-free stored user ids). -/
theorem filter_students_length_lt (db : DB) (ids : List String) (i0 : String)
    (hudb : (db.users.map User._id).Nodup)
    (hmem0 : i0 ∈ ids) (hbad : resolvesAsStudent db i0 = false) :
    (db.users.filter (fun u => ids.contains u._id && u.role == "student")).length
      < ids.length := by
  set S := db.users.filter (fun u => ids.contains u._id && u.role == "student")
    with hS
  have hsub : List.Sublist (S.map User._id) (db.users.map User._id) :=
    (List.filter_sublist _).map _
  have hSnd : (S.map User._id).Nodup := hudb.sublist hsub
  have hstep : ∀ x ∈ S.map User._id, x ∈ ids ∧ x ≠ i0 := by
    intro x hx
    obtain ⟨u, hu, h⟩ := List.mem_map.mp hx
    subst h
    obtain ⟨humem, h2⟩ := List.mem_filter.mp hu
    simp only [Bool.and_eq_true] at h2
    refine ⟨List.elem_iff.mp h2.1, ?_⟩
    intro hxe
    have : resolvesAsStudent db i0 = true := by
      simp only [resolvesAsStudent, List.any_eq_true]
      exact ⟨u, humem, by simp [hxe, h2.2]⟩
    rw [hbad] at this
    exact Bool.false_ne_true this
  have hfinsub : (S.map User._id).toFinset ⊆ ids.toFinset.erase i0 := by
    intro x hx
    have := hstep x (List.mem_toFinset.mp hx)
    exact Finset.mem_erase.mpr ⟨this.2, List.mem_toFinset.mpr this.1⟩
  have h1 : S.length = (S.map User._id).toFinset.card := by
    rw [List.toFinset_card_of_nodup hSnd, List.length_map]
  rw [h1]
  calc (S.map User._id).toFinset.card
      ≤ (ids.toFinset.erase i0).card := Finset.card_le_card hfinsub
    _ < ids.toFinset.card := Finset.card_erase_lt_of_mem (List.mem_toFinset.mpr hmem0)
    _ ≤ ids.length := List.toFinset_card_le ids

/-- C4 counterexample: in the fixture store the id "s1" resolves to a
student, so in the submitted list ["s1", "s1"] every id resolves, yet
`POST /admin/batches/:batchId/students` rejects the request with 400
and leaves the store unchanged — `User.find({_id: {$in: ids}})`
returns the one matching document while the handler compares its count
against the length of the submitted list, so duplicated valid ids fail
the count check. -/
theorem add_students_rejects_duplicate_valid_ids :
    (["s1", "s1"].all (fun i => resolvesAsStudent dbW i)) = true ∧
    addStudents dbW "b2" (some ["s1", "s1"]) = ⟨400, dbW⟩ := by
  exact ⟨rfl, rfl⟩

/-- C4 (amended): for a non-empty submitted list and an existing batch
(stored user ids being pairwise distinct), if some submitted id does
not resolve to a student the whole request fails with 400 and the
store is unchanged; and if every id resolves *and the submitted ids
are pairwise distinct*, exactly the ids not already present are
appended (so re-submitting already-present ids adds nothing). -/
theorem add_students_contract (db : DB) (bid : String) (ids : List String)
    (b : Batch)
    (hb : findBatchById db bid = some b)
    (hids : ids ≠ [])
    (hudb : (db.users.map User._id).Nodup) :
    ((∃ i ∈ ids, resolvesAsStudent db i = false) →
      addStudents db bid (some ids) = ⟨400, db⟩) ∧
    (ids.Nodup → (∀ i ∈ ids, resolvesAsStudent db i = true) →
      addStudents db bid (some ids) =
        ⟨200, saveBatch db { b with students :=
          b.students ++ (ids.filter (fun i => !b.students.contains i)) }⟩ ∧
      findBatchById (addStudents db bid (some ids)).db bid =
        some { b with students :=
          b.students ++ (ids.filter (fun i => !b.students.contains i)) }) := by
  have hbid' : b._id = bid := by
    simpa using List.find?_some (p := fun x : Batch => x._id == bid) hb
  constructor
  · rintro ⟨i0, hmem0, hbad⟩
    unfold addStudents
    dsimp only
    rw [if_neg (by simp [hids]), hb]
    dsimp only
    rw [if_pos (Nat.ne_of_lt (filter_students_length_lt db ids i0 hudb hmem0 hbad))]
  · intro hnd hres
    have heq : addStudents db bid (some ids) =
        ⟨200, saveBatch db { b with students :=
          b.students ++ (ids.filter (fun i => !b.students.contains i)) }⟩ := by
      unfold addStudents
      dsimp only
      rw [if_neg (by simp [hids]), hb]
      dsimp only
      rw [if_neg (fun hne => hne (filter_students_length_eq db ids hnd hudb hres))]
    refine ⟨heq, ?_⟩
    rw [heq]
    exact find?_replace db.batches bid b _ hb hbid'

/-- Witness for `add_students_contract`: adding the fixture student to
the empty fixture batch succeeds and appends exactly that id. -/
theorem add_students_contract_witness :
    addStudents dbW "b2" (some ["s1"]) =
      ⟨200, saveBatch dbW { batchEmptyB with students :=
        batchEmptyB.students ++
          (["s1"].filter (fun i => !batchEmptyB.students.contains i)) }⟩ :=
  ((add_students_contract dbW "b2" ["s1"] batchEmptyB (by decide) (by decide)
      (by decide)).2 (by decide) (by decide)).1

/-- C2 counterexample: the admin login at a correct password answers
200 with a token, but the signed claims are `{adminId, email}` only —
verifying the returned token yields a claim set whose role is absent
(`none`) even though the stored account's role is "admin", so the
claim that every login's token claims decode to the identifier *and
role* fails on the admin login route. -/
theorem admin_login_token_omits_role :
    adminLogin dbAdminOnly "sec" (some "a@x.com") (some "secret1") =
      ⟨200, some (Token.signed ⟨none, some "a1", "a@x.com", none⟩ "sec"), []⟩ ∧
    (jwtVerify (Token.signed ⟨none, some "a1", "a@x.com", none⟩ "sec") "sec").map
      Claims.role = some none ∧
    (findAdminByEmail dbAdminOnly "a@x.com").map AdminUser.role = some "admin" := by
  refine ⟨by decide, by decide, by decide⟩

/-- C2 (amended): for every login route, under passing input
validation: an account found by the route's lookup with the correct
password yields 200 and a token whose claims carry the account's
identifier (and, for the legacy, student and parent routes, its role —
the admin login signs no role claim); a wrong password yields 401,
never 404; a lookup miss yields 404. -/
theorem login_contract (db : DB) (secret e pw : String)
    (he : emailRegexOk e = true) (he0 : e ≠ "")
    (hpw : pw ≠ "") (hpw1 : 1 ≤ pw.length) :
    (findAdminByEmail db e = none →
      adminLogin db secret (some e) (some pw) = ⟨404, none, []⟩) ∧
    (∀ a, findAdminByEmail db e = some a →
      (bcryptCompare pw a.password = true →
        adminLogin db secret (some e) (some pw) =
          ⟨200, some (jwtSign ⟨none, some a._id, a.email, none⟩ secret), []⟩) ∧
      (bcryptCompare pw a.password = false →
        adminLogin db secret (some e) (some pw) = ⟨401, none, []⟩)) ∧
    (db.users.find? (fun u => u.email == e || u.parentEmail == some e) = none →
      userLogin db secret (some e) (some pw) = ⟨404, none, []⟩) ∧
    (∀ u, db.users.find? (fun u => u.email == e || u.parentEmail == some e) = some u →
      (bcryptCompare pw u.password = true →
        userLogin db secret (some e) (some pw) =
          ⟨200, some (jwtSign ⟨some u._id, none, u.email, some u.role⟩ secret), []⟩) ∧
      (bcryptCompare pw u.password = false →
        userLogin db secret (some e) (some pw) = ⟨401, none, []⟩)) ∧
    (db.users.find? (fun u => u.email == e && u.role == "student") = none →
      loginStudent db secret (some e) (some pw) = ⟨404, none, []⟩) ∧
    (∀ s, db.users.find? (fun u => u.email == e && u.role == "student") = some s →
      (bcryptCompare pw s.password = true →
        loginStudent db secret (some e) (some pw) =
          ⟨200, some (jwtSign ⟨some s._id, none, s.email, some "student"⟩ secret), []⟩) ∧
      (bcryptCompare pw s.password = false →
        loginStudent db secret (some e) (some pw) = ⟨401, none, []⟩)) ∧
    (db.users.find? (fun u => u.email == e && u.role == "parent") = none →
      loginParent db secret (some e) (some pw) = ⟨404, none, []⟩) ∧
    (∀ p, db.users.find? (fun u => u.email == e && u.role == "parent") = some p →
      (bcryptCompare pw p.password = true →
        loginParent db secret (some e) (some pw) =
          ⟨200, some (jwtSign ⟨some p._id, none, p.email, some "parent"⟩ secret),
            (db.users.filter (fun u =>
              u.parentEmail == some e && u.role == "student")).map User.toRef⟩) ∧
      (bcryptCompare pw p.password = false →
        loginParent db secret (some e) (some pw) = ⟨401, none, []⟩)) := by
  have hval : validateLoginOk (some e) (some pw) = true := by
    simp [validateLoginOk, truthy, he, hpw]
  have hparse : loginParse (some e) (some pw) = some (e, pw) := by
    simp [loginParse, zodEmailOk, he, hpw1]
  have htru : (truthy (some e) && truthy (some pw)) = true := by
    simp [truthy, he0, hpw]
  refine ⟨?_, ?_, ?_, ?_, ?_, ?_, ?_, ?_⟩
  · intro hA
    unfold adminLogin
    rw [hval, if_neg (by simp)]
    dsimp only
    rw [hA]
  · intro a hA
    constructor
    · intro hc
      unfold adminLogin
      rw [hval, if_neg (by simp)]
      dsimp only
      rw [hA]
      dsimp only
      rw [hc]
      simp
    · intro hc
      unfold adminLogin
      rw [hval, if_neg (by simp)]
      dsimp only
      rw [hA]
      dsimp only
      rw [hc]
      simp
  · intro hU
    unfold userLogin
    rw [hparse]
    dsimp only
    rw [hU]
  · intro u hU
    constructor
    · intro hc
      unfold userLogin
      rw [hparse]
      dsimp only
      rw [hU]
      dsimp only
      rw [hc]
      simp
    · intro hc
      unfold userLogin
      rw [hparse]
      dsimp only
      rw [hU]
      dsimp only
      rw [hc]
      simp
  · intro hS
    unfold loginStudent
    rw [htru, if_neg (by simp)]
    dsimp only
    rw [hS]
  · intro s hS
    constructor
    · intro hc
      unfold loginStudent
      rw [htru, if_neg (by simp)]
      dsimp only
      rw [hS]
      dsimp only
      rw [hc]
      simp
    · intro hc
      unfold loginStudent
      rw [htru, if_neg (by simp)]
      dsimp only
      rw [hS]
      dsimp only
      rw [hc]
      simp
  · intro hP
    unfold loginParent
    rw [htru, if_neg (by simp)]
    dsimp only
    rw [hP]
  · intro p hP
    constructor
    · intro hc
      unfold loginParent
      rw [htru, if_neg (by simp)]
      dsimp only
      rw [hP]
      dsimp only
      rw [hc]
      simp
    · intro hc
      unfold loginParent
      rw [htru, if_neg (by simp)]
      dsimp only
      rw [hP]
      dsimp only
      rw [hc]
      simp

/-- Witness for `login_contract`: with the fixture store and the
student's credentials, the admin lookup misses (404), the legacy and
student logins succeed with the student's token, and the parent lookup
misses (404). -/
theorem login_contract_witness :
    adminLogin dbW "sec" (some "s@x.com") (some "pw123456") = ⟨404, none, []⟩ ∧
    userLogin dbW "sec" (some "s@x.com") (some "pw123456") =
      ⟨200, some (jwtSign ⟨some "s1", none, "s@x.com", some "student"⟩ "sec"), []⟩ ∧
    loginStudent dbW "sec" (some "s@x.com") (some "pw123456") =
      ⟨200, some (jwtSign ⟨some "s1", none, "s@x.com", some "student"⟩ "sec"), []⟩ ∧
    loginParent dbW "sec" (some "s@x.com") (some "pw123456") = ⟨404, none, []⟩ := by
  have h := login_contract dbW "sec" "s@x.com" "pw123456"
    (by decide) (by decide) (by decide) (by decide)
  exact ⟨h.1 (by decide),
    (h.2.2.2.1 stuS (by decide)).1 (by decide),
    (h.2.2.2.2.2.1 stuS (by decide)).1 (by decide),
    h.2.2.2.2.2.2.1 (by decide)⟩

/-- C3 counterexample: `GET /user/my-batches` reads no `Authorization`
header at all — with no token anywhere in the request it answers 200
and returns the batches of the caller-supplied `student_id`, instead
of the Unauthorized/Forbidden the claim requires. -/
theorem my_batches_returns_data_without_token :
    (myBatches dbW (some "s1")).status = 200 ∧
    (myBatches dbW (some "s1")).batches ≠ [] := by
  refine ⟨by decide, by decide⟩

/-- C3 (amended): of the four read routes, only
`GET /user/student/batches/:batchId` verifies the bearer token *and*
cross-checks the query identifier against the claims (401 on a missing
or invalid token, 403 on a `userId` mismatch);
`GET /user/parent/student-batches` verifies the token but takes no
query identifier (401 on a missing header, 500 — not 401 — on an
invalid token, through its `error.status || 500` catch);
`GET /user/my-batches` reads no token at all and trusts `student_id`;
`GET /user/parent/batches/:batchId` only requires a Bearer-prefixed
header to be present, never verifies the token, and trusts the query
`parentId`/`studentId`, so its answer is independent of the token. -/
theorem user_batch_routes_auth_contract (db : DB) (secret bid : String)
    (pid stid : Option String) (t t' : Token) (c : Claims) :
    (∀ s : String, s ≠ "" → (myBatches db (some s)).status = 200) ∧
    (parentStudentBatches db secret none = ⟨401, []⟩) ∧
    (jwtVerify t secret = none →
      parentStudentBatches db secret (some t) = ⟨500, []⟩) ∧
    (∀ uid, studentBatchGet db secret bid uid none = ⟨401, []⟩) ∧
    (∀ uid, jwtVerify t secret = none →
      studentBatchGet db secret bid uid (some t) = ⟨401, []⟩) ∧
    (∀ uid, jwtVerify t secret = some c → c.userId ≠ uid →
      studentBatchGet db secret bid uid (some t) = ⟨403, []⟩) ∧
    (parentBatchGet db bid pid stid none = ⟨401, []⟩) ∧
    (parentBatchGet db bid pid stid (some t) =
      parentBatchGet db bid pid stid (some t')) := by
  refine ⟨?_, rfl, ?_, fun _ => rfl, ?_, ?_, rfl, rfl⟩
  · intro s hs
    unfold myBatches
    rw [if_neg (by simp [truthy, hs])]
  · intro hv
    unfold parentStudentBatches
    dsimp only
    rw [hv]
  · intro uid hv
    unfold studentBatchGet
    dsimp only
    rw [hv]
  · intro uid hv hne
    unfold studentBatchGet
    dsimp only
    rw [hv]
    dsimp only
    rw [if_pos hne]

/-- Witness for `user_batch_routes_auth_contract` on the fixture
store: my-batches answers 200 with no token in sight; the
parent-student-batches route answers 401 without a header and 500 for
an unverifiable bearer value; the student batch route answers 401
without or with an invalid token and 403 when the verified claims
carry a different userId than the query; the parent batch route
answers 401 without a header and identically for two different bearer
tokens. -/
theorem user_batch_routes_auth_contract_witness :
    (myBatches dbW (some "s1")).status = 200 ∧
    parentStudentBatches dbW "sec" none = ⟨401, []⟩ ∧
    parentStudentBatches dbW "sec" (some (.raw "x")) = ⟨500, []⟩ ∧
    studentBatchGet dbW "sec" "b1" (some "s1") none = ⟨401, []⟩ ∧
    studentBatchGet dbW "sec" "b1" (some "s1") (some (.raw "x")) = ⟨401, []⟩ ∧
    studentBatchGet dbW "sec" "b1" (some "other")
      (some (.signed ⟨some "s1", none, "s@x.com", some "student"⟩ "sec")) =
      ⟨403, []⟩ ∧
    parentBatchGet dbW "b1" (some "p1") (some "s1") none = ⟨401, []⟩ ∧
    parentBatchGet dbW "b1" (some "p1") (some "s1") (some (.raw "x")) =
      parentBatchGet dbW "b1" (some "p1") (some "s1") (some (.raw "y")) := by
  have h1 := user_batch_routes_auth_contract dbW "sec" "b1" (some "p1") (some "s1")
    (Token.raw "x") (Token.raw "y") ⟨some "s1", none, "s@x.com", some "student"⟩
  have h2 := user_batch_routes_auth_contract dbW "sec" "b1" (some "p1") (some "s1")
    (Token.signed ⟨some "s1", none, "s@x.com", some "student"⟩ "sec") (Token.raw "y")
    ⟨some "s1", none, "s@x.com", some "student"⟩
  exact ⟨h1.1 "s1" (by decide), h1.2.1, h1.2.2.1 (by decide),
    h1.2.2.2.1 (some "s1"), h1.2.2.2.2.1 (some "s1") (by decide),
    h2.2.2.2.2.2.1 (some "other") (by decide) (by decide),
    h1.2.2.2.2.2.2.1, h1.2.2.2.2.2.2.2⟩

/-- C7: a registration whose email and parentEmail both miss the
duplicate check creates exactly two user records in the same request —
a student under `email` and a parent under `parentEmail`, both storing
the one computed password hash — and a subsequent parent login with
the parent email (and the shared password) succeeds with a
`linkedStudents` list containing the new student; if either address is
already a stored user email, registration fails with 409 and the store
is unchanged. -/
theorem register_creates_student_parent_pair (db : DB) (secret n E P pw : String)
    (hp : userRegisterParse (some n) (some E) (some P) (some pw) = some (n, E, P, pw)) :
    (db.users.find? (fun u => u.email == E || u.email == P) = none →
      userRegister db secret (some n) (some E) (some P) (some pw) =
        ⟨201, some (jwtSign ⟨some (freshId db.nextId), none, E, some "student"⟩ secret),
          { db with users := (db.users ++
              [⟨freshId db.nextId, n, E, some P, bcryptHash pw, "student"⟩,
               ⟨freshId (db.nextId + 1), "Parent of " ++ n, P, none, bcryptHash pw,
                 "parent"⟩]),
                    nextId := db.nextId + 2 }⟩ ∧
      (loginParent
        (userRegister db secret (some n) (some E) (some P) (some pw)).db secret
        (some P) (some pw)).status = 200 ∧
      (⟨freshId db.nextId, n, E⟩ : UserRef) ∈
        (loginParent
          (userRegister db secret (some n) (some E) (some P) (some pw)).db secret
          (some P) (some pw)).linkedStudents) ∧
    (∀ u, db.users.find? (fun u => u.email == E || u.email == P) = some u →
      userRegister db secret (some n) (some E) (some P) (some pw) = ⟨409, none, db⟩) := by
  have hcond : (n.length ≥ 1 && zodEmailOk E && zodEmailOk P && pw.length ≥ 6) = true := by
    by_cases hc : (n.length ≥ 1 && zodEmailOk E && zodEmailOk P && pw.length ≥ 6) = true
    · exact hc
    · unfold userRegisterParse at hp
      dsimp only at hp
      rw [if_neg hc] at hp
      exact absurd hp (by simp)
  have hP : zodEmailOk P = true := by
    simp only [Bool.and_eq_true] at hcond
    exact hcond.1.2
  have hpw6 : (decide (pw.length ≥ 6)) = true := by
    simp only [Bool.and_eq_true] at hcond
    exact hcond.2
  have hPne : P ≠ "" := by
    intro h
    rw [h] at hP
    exact absurd hP (by decide)
  have hpwne : pw ≠ "" := by
    intro h
    rw [h] at hpw6
    exact absurd hpw6 (by decide)
  constructor
  · intro hfind
    have heq : userRegister db secret (some n) (some E) (some P) (some pw) =
        ⟨201, some (jwtSign ⟨some (freshId db.nextId), none, E, some "student"⟩ secret),
          { db with users := (db.users ++
              [⟨freshId db.nextId, n, E, some P, bcryptHash pw, "student"⟩,
               ⟨freshId (db.nextId + 1), "Parent of " ++ n, P, none, bcryptHash pw,
                 "parent"⟩]),
                    nextId := db.nextId + 2 }⟩ := by
      unfold userRegister
      rw [hp]
      dsimp only
      rw [hfind]
    have hpre : db.users.find? (fun u => u.email == P && u.role == "parent") = none := by
      rw [List.find?_eq_none]
      intro u hu
      have h1 := List.find?_eq_none.mp hfind u hu
      simp only [Bool.or_eq_true, beq_iff_eq, not_or] at h1
      simp only [Bool.and_eq_true, beq_iff_eq, not_and]
      intro hmail
      exact absurd hmail h1.2
    have htru2 : (truthy (some P) && truthy (some pw)) = true := by
      simp [truthy, hPne, hpwne]
    have hlp : loginParent
        (userRegister db secret (some n) (some E) (some P) (some pw)).db secret
        (some P) (some pw) =
        ⟨200, some (jwtSign ⟨some (freshId (db.nextId + 1)), none, P, some "parent"⟩
            secret),
          (((db.users ++
              ([⟨freshId db.nextId, n, E, some P, bcryptHash pw, "student"⟩,
                ⟨freshId (db.nextId + 1), "Parent of " ++ n, P, none, bcryptHash pw,
                  "parent"⟩] : List User)).filter (fun u =>
                u.parentEmail == some P && u.role == "student")).map User.toRef)⟩ := by
      rw [heq]
      unfold loginParent
      rw [htru2, if_neg (by simp)]
      dsimp only
      rw [List.find?_append, hpre]
      rw [List.find?_cons_of_neg _ (by simp)]
      rw [List.find?_cons_of_pos _ (by simp)]
      dsimp only [Option.or]
      rw [if_neg (by simp [bcryptCompare])]
    refine ⟨heq, ?_, ?_⟩
    · rw [hlp]
    · rw [hlp]
      dsimp only
      refine List.mem_map.mpr
        ⟨⟨freshId db.nextId, n, E, some P, bcryptHash pw, "student"⟩, ?_, rfl⟩
      refine List.mem_filter.mpr ⟨?_, by simp⟩
      simp
  · intro u hfind
    unfold userRegister
    rw [hp]
    dsimp only
    rw [hfind]

/-- Witness for `register_creates_student_parent_pair`: the spec
scenario — registering student "s@x.com" with parent "p@x.com" on an
empty store creates both records with one hash, and the parent login
returns the student among `linkedStudents`. -/
theorem register_creates_student_parent_pair_witness :
    userRegister emptyDB "sec" (some "S") (some "s@x.com") (some "p@x.com")
        (some "pw123456") =
      ⟨201, some (jwtSign ⟨some "oid0", none, "s@x.com", some "student"⟩ "sec"),
        { emptyDB with users :=
            [⟨"oid0", "S", "s@x.com", some "p@x.com", bcryptHash "pw123456",
               "student"⟩,
             ⟨"oid1", "Parent of S", "p@x.com", none, bcryptHash "pw123456",
               "parent"⟩],
                       nextId := 2 }⟩ ∧
    (loginParent (userRegister emptyDB "sec" (some "S") (some "s@x.com")
        (some "p@x.com") (some "pw123456")).db "sec" (some "p@x.com")
        (some "pw123456")).status = 200 ∧
    (⟨"oid0", "S", "s@x.com"⟩ : UserRef) ∈
      (loginParent (userRegister emptyDB "sec" (some "S") (some "s@x.com")
          (some "p@x.com") (some "pw123456")).db "sec" (some "p@x.com")
          (some "pw123456")).linkedStudents := by
  have h := (register_creates_student_parent_pair emptyDB "sec" "S" "s@x.com"
      "p@x.com" "pw123456" (by decide)).1 (by decide)
  exact ⟨h.1, h.2.1, h.2.2⟩

/-- No stored user has role "teacher". -/
def NoTeacherUsers (db : DB) : Prop := ∀ u ∈ db.users, u.role ≠ "teacher"

/-- Admin registration writes only the `AdminUser` store. -/
theorem adminRegister_users (db : DB) (secret : String)
    (name email password : Option String) :
    (adminRegister db secret name email password).db.users = db.users := by
  unfold adminRegister
  split
  · rfl
  · split
    · rfl
    · rfl

/-- User registration appends only a student record and a parent
record. -/
theorem userRegister_users (db : DB) (secret : String)
    (name email parentEmail password : Option String) :
    ∀ u ∈ (userRegister db secret name email parentEmail password).db.users,
      u ∈ db.users ∨ u.role = "student" ∨ u.role = "parent" := by
  unfold userRegister
  split
  · exact fun u hu => Or.inl hu
  · split
    · exact fun u hu => Or.inl hu
    · intro u hu
      simp only [List.mem_append] at hu
      rcases hu with hu | hu
      · exact Or.inl hu
      · simp only [List.mem_cons, List.not_mem_nil, or_false] at hu
        rcases hu with hu | hu
        · subst hu
          exact Or.inr (Or.inl rfl)
        · subst hu
          exact Or.inr (Or.inr rfl)

/-- Batch creation writes only the `Batch` store. -/
theorem createBatch_users (db : DB)
    (batch_code name classLabel teacher_id : Option String) :
    (createBatch db batch_code name classLabel teacher_id).db.users = db.users := by
  unfold createBatch
  split
  · rfl
  · split
    · rfl
    · split
      · rfl
      · rfl

/-- Adding students writes only the `Batch` store. -/
theorem addStudents_users (db : DB) (batchId : String)
    (studentIds : Option (List String)) :
    (addStudents db batchId studentIds).db.users = db.users := by
  unfold addStudents
  dsimp only
  repeat' split
  all_goals rfl

/-- Creating an announcement writes only the `Batch` store. -/
theorem createAnnouncement_users (db : DB) (batchId : String)
    (title content : Option String) (authHeader : Option Token) :
    (createAnnouncement db batchId title content authHeader).db.users = db.users := by
  unfold createAnnouncement
  repeat'
    first
    | split
    | dsimp only
  all_goals rfl

/-- Joining a batch writes only the `Batch` store. -/
theorem joinBatch_users (db : DB) (secret : String)
    (batch_code : Option String) (authHeader : Option Token) :
    (joinBatch db secret batch_code authHeader).db.users = db.users := by
  unfold joinBatch
  repeat'
    first
    | split
    | dsimp only
  all_goals rfl

/-- Through the mounted application the profile route never writes. -/
theorem mountedPutProfile_db (db : DB) (body : ProfileBody) :
    (mountedPutProfile db body).db = db := by
  unfold mountedPutProfile putProfile
  split
  · rfl
  · rfl

/-- Every mounted mutating route preserves the absence of
teacher-role users. -/
theorem step_preserves_noTeacher {db db' : DB} (h : Step db db')
    (hn : NoTeacherUsers db) : NoTeacherUsers db' := by
  cases h with
  | adminReg secret name email password =>
      intro u hu
      rw [adminRegister_users] at hu
      exact hn u hu
  | userReg secret name email parentEmail password =>
      intro u hu
      rcases userRegister_users _ secret name email parentEmail password u hu with
        h | h | h
      · exact hn u h
      · rw [h]
        decide
      · rw [h]
        decide
  | batchCreate batch_code name classLabel teacher_id =>
      intro u hu
      rw [createBatch_users] at hu
      exact hn u hu
  | studentsAdd batchId studentIds =>
      intro u hu
      rw [addStudents_users] at hu
      exact hn u hu
  | announce batchId title content authHeader =>
      intro u hu
      rw [createAnnouncement_users] at hu
      exact hn u hu
  | batchJoin secret batch_code authHeader =>
      intro u hu
      rw [joinBatch_users] at hu
      exact hn u hu
  | profile body =>
      intro u hu
      rw [mountedPutProfile_db] at hu
      exact hn u hu

/-- No reachable store contains a teacher-role user. -/
theorem reachable_noTeacher {db : DB} (h : Reachable db) : NoTeacherUsers db := by
  induction h with
  | init =>
      intro u hu
      simp [emptyDB] at hu
  | step _ s ih => exact step_preserves_noTeacher s ih

/-- C10: in every store reachable through the mounted routes no user
record has role "teacher" (registration creates only "student" and
"parent" users, and admins live in the separate `AdminUser` store), so
`GET /admin/teachers` always answers with an empty list and count 0. -/
theorem teachers_query_always_empty (db : DB) (h : Reachable db) :
    (getTeachers db).teachers = [] ∧ (getTeachers db).count = 0 := by
  have hn := reachable_noTeacher h
  have hf : db.users.filter (fun u => u.role == "teacher") = [] := by
    rw [List.filter_eq_nil_iff]
    intro u hu
    simp [hn u hu]
  constructor
  · unfold getTeachers
    rw [hf]
    rfl
  · unfold getTeachers
    rw [hf]
    rfl

/-- Witness for `teachers_query_always_empty` at the store reached by
one admin registration followed by one student registration. -/
theorem teachers_query_always_empty_witness :
    (getTeachers (userRegister
        (adminRegister emptyDB "sec" (some "A") (some "a@x.com") (some "secret1")).db
        "sec" (some "S") (some "s@x.com") (some "p@x.com") (some "pw123456")).db).teachers
      = [] ∧
    (getTeachers (userRegister
        (adminRegister emptyDB "sec" (some "A") (some "a@x.com") (some "secret1")).db
        "sec" (some "S") (some "s@x.com") (some "p@x.com") (some "pw123456")).db).count
      = 0 :=
  teachers_query_always_empty _
    (Reachable.step
      (Reachable.step Reachable.init
        (Step.adminReg emptyDB "sec" (some "A") (some "a@x.com") (some "secret1")))
      (Step.userReg _ "sec" (some "S") (some "s@x.com") (some "p@x.com")
        (some "pw123456")))
